import Mathlib

/-!
Shallow embedding of the `lazyerrors` Go package (panic/recover based error
propagation).  Go interface values relevant to the package are modelled by the
inductive type `GoValue`; panicking control flow is modelled by explicit
outcome types (`TryOutcome` for the Try/Signal side, `BoundaryResult` for the
deferred Catch/Boundary side).  The ambient call stack used by
`runtime.Caller` is modelled as an explicit list of frames threaded through
the Try variants, and the ambient `debug.Stack()` snapshot as an explicit
string argument threaded through the Catch variants.
-/

namespace LazyErrors

/-- A Go interface value as far as this package can observe it: the nil
interface, strings, integers, an arbitrary non-error value carrying its `%v`
rendering, and the three error shapes the package manipulates:
`errors.New` / `fmt.Errorf` style textual errors, `*LazyErrorWithCaller`
(fields `Err`, `Caller`) and `*LazyErrorFromPanic` (fields `Recovered`,
`Stack`). -/
inductive GoValue where
  | goNil : GoValue
  | str : String → GoValue
  | int : Int → GoValue
  | other : String → GoValue
  | errorString : String → GoValue
  | lazyWithCaller : GoValue → String → GoValue
  | lazyFromPanic : GoValue → String → GoValue
deriving DecidableEq, Repr

/-- `ErrPanic = errors.New("panic")`: the sentinel error wrapped inside of
`LazyErrorFromPanic` for Unwrap consistency. -/
def ErrPanic : GoValue := GoValue.errorString "panic"

/-- Whether a value's dynamic type satisfies the Go `error` interface. -/
def isError : GoValue → Bool
  | GoValue.errorString _ => true
  | GoValue.lazyWithCaller _ _ => true
  | GoValue.lazyFromPanic _ _ => true
  | _ => false

/-- Whether a value matches the type switch
`case *LazyErrorFromPanic, *LazyErrorWithCaller`. -/
def isWrapped : GoValue → Bool
  | GoValue.lazyWithCaller _ _ => true
  | GoValue.lazyFromPanic _ _ => true
  | _ => false

/-- Go `fmt` `%v` rendering of a value.  For error values `%v` is the
`Error()` method: `LazyErrorWithCaller.Error` returns `e.Caller + e.Err.Error()`
and `LazyErrorFromPanic.Error` returns
`fmt.Sprintf("[%v recovered]:\n%v\n[stack]:\n%s", ErrPanic, e.Recovered, e.Stack)`,
where `%v` of the sentinel `ErrPanic` is its message `"panic"`. -/
def fmtV : GoValue → String
  | GoValue.goNil => "<nil>"
  | GoValue.str s => s
  | GoValue.int n => toString n
  | GoValue.other d => d
  | GoValue.errorString s => s
  | GoValue.lazyWithCaller e c => c ++ fmtV e
  | GoValue.lazyFromPanic r st => "[panic recovered]:\n" ++ fmtV r ++ "\n[stack]:\n" ++ st

/-- The `Unwrap` methods of the two wrapper shapes:
`(*LazyErrorWithCaller).Unwrap` returns the wrapped `Err`;
`(*LazyErrorFromPanic).Unwrap` always returns the sentinel `ErrPanic`.
Other values have no `Unwrap` method. -/
def Unwrap : GoValue → Option GoValue
  | GoValue.lazyWithCaller e _ => some e
  | GoValue.lazyFromPanic _ _ => some ErrPanic
  | _ => none

/-- A stack frame as reported by `runtime.Caller`: file and line. -/
abbrev Frame : Type := String × Nat

/-- `runtime.Caller(skip)` over an explicit stack whose head is the frame of
the function invoking `runtime.Caller`; `skip = 0` reports that frame. -/
def runtimeCaller (skip : Nat) (stack : List Frame) : Option Frame :=
  stack.get? skip

/-- The frame of the `caller` helper itself (the line invoking
`runtime.Caller`). -/
def frameCaller : Frame := ("lazy_errors.go", 118)

/-- The frame of `NewErrorWithCaller` at its call of `caller()`. -/
def frameNewErrorWithCaller : Frame := ("lazy_errors.go", 104)

/-- The frame of `TryWrapErrorFunc` at its call of `NewErrorWithCaller`. -/
def frameTryWrapError : Frame := ("lazy_errors.go", 134)

/-- `fmt.Sprintf("%s:%d: ", file, line)`. -/
def formatFrame : Frame → String :=
  fun fr => fr.1 ++ ":" ++ toString fr.2 ++ ": "

/-- The `caller()` helper: `runtime.Caller(3)` formatted as `"file:line: "`,
or `""` when the lookup fails.  `above` is the list of frames above the
`caller` function, innermost first; `caller` pushes its own frame before
consulting `runtime.Caller`. -/
def caller (above : List Frame) : String :=
  match runtimeCaller 3 (frameCaller :: above) with
  | some fr => formatFrame fr
  | none => ""

/-- `NewErrorWithCaller`: wraps `err` into a `LazyErrorWithCaller` whose
`Caller` field is produced by `caller()`; `above` is the frame list above
this function, innermost first. -/
def NewErrorWithCaller (above : List Frame) (err : GoValue) : GoValue :=
  GoValue.lazyWithCaller err (caller (frameNewErrorWithCaller :: above))

/-- Outcome of a Try variant: normal return, or a raised panic carrying a
payload. -/
inductive TryOutcome where
  | normal : TryOutcome
  | panicked : GoValue → TryOutcome
deriving DecidableEq, Repr

/-- `TryWrapErrorFunc`: on nil error do nothing; otherwise panic with the
error as is when it is already a `*LazyErrorFromPanic` or
`*LazyErrorWithCaller`, and with `NewErrorWithCaller(err)` otherwise.
`above` is the list of frames above this function (head = the frame that
invoked Try), innermost first. -/
def TryWrapErrorFunc (above : List Frame) (err : GoValue) : TryOutcome :=
  if err = GoValue.goNil then TryOutcome.normal
  else
    match err with
    | GoValue.lazyFromPanic r st => TryOutcome.panicked (GoValue.lazyFromPanic r st)
    | GoValue.lazyWithCaller e c => TryOutcome.panicked (GoValue.lazyWithCaller e c)
    | e => TryOutcome.panicked (NewErrorWithCaller (frameTryWrapError :: above) e)

/-- `TryErrorFunc`: panic with any non-nil error, unwrapped.  The frame list
is taken for signature uniformity with the other Try variant and ignored. -/
def TryErrorFunc (_above : List Frame) (err : GoValue) : TryOutcome :=
  if err = GoValue.goNil then TryOutcome.normal
  else TryOutcome.panicked err

/-- Observable result of running a deferred Catch variant: the final state of
the output slot (`none` when the `*error` pointer itself was nil, otherwise
`some` of the slot's contents) and the panic still propagating past the
boundary (`none` when absorbed or when the scope exited normally). -/
structure BoundaryResult where
  slot : Option GoValue
  pending : Option GoValue
deriving DecidableEq, Repr

/-- `CatchErrorFunc`: with a nil pointer, return at once (no `recover`, so a
pending panic keeps unwinding).  Otherwise recover; on an error payload
assign it through the pointer, on any other payload re-panic.  `r` is what
`recover()` would return (`none` on a normal scope exit); the snapshot
argument models the ambient `debug.Stack()` and is unused here. -/
def CatchErrorFunc (ep : Option GoValue) (r : Option GoValue) (_snap : String) :
    BoundaryResult :=
  match ep with
  | none => ⟨none, r⟩
  | some prior =>
    match r with
    | none => ⟨some prior, none⟩
    | some v =>
      if isError v then ⟨some v, none⟩
      else ⟨some prior, some v⟩

/-- `CatchLazyErrorFunc`: absorbs only `*LazyErrorFromPanic` and
`*LazyErrorWithCaller` payloads; everything else re-panics. -/
def CatchLazyErrorFunc (ep : Option GoValue) (r : Option GoValue) (_snap : String) :
    BoundaryResult :=
  match ep with
  | none => ⟨none, r⟩
  | some prior =>
    match r with
    | none => ⟨some prior, none⟩
    | some v =>
      match v with
      | GoValue.lazyFromPanic re st => ⟨some (GoValue.lazyFromPanic re st), none⟩
      | GoValue.lazyWithCaller e c => ⟨some (GoValue.lazyWithCaller e c), none⟩
      | w => ⟨some prior, some w⟩

/-- `CatchAllWithStackFunc`: absorbs every payload; error payloads are
assigned as is, any other payload is wrapped by
`NewErrorFromPanic(r, debug.Stack())` into a `LazyErrorFromPanic` carrying
the snapshot `snap`. -/
def CatchAllWithStackFunc (ep : Option GoValue) (r : Option GoValue) (snap : String) :
    BoundaryResult :=
  match ep with
  | none => ⟨none, r⟩
  | some prior =>
    match r with
    | none => ⟨some prior, none⟩
    | some v =>
      if isError v then ⟨some v, none⟩
      else ⟨some (GoValue.lazyFromPanic v snap), none⟩

/-- `CatchAllFunc`: absorbs every payload; error payloads are assigned as is,
any other payload is wrapped by `fmt.Errorf("panic: %v", r)` into a plain
textual error. -/
def CatchAllFunc (ep : Option GoValue) (r : Option GoValue) (_snap : String) :
    BoundaryResult :=
  match ep with
  | none => ⟨none, r⟩
  | some prior =>
    match r with
    | none => ⟨some prior, none⟩
    | some v =>
      if isError v then ⟨some v, none⟩
      else ⟨some (GoValue.errorString ("panic: " ++ fmtV v)), none⟩

/-- Initial value of the package-level `Try` binding:
`var Try = TryWrapErrorFunc`. -/
def Try : List Frame → GoValue → TryOutcome := TryWrapErrorFunc

/-- Initial value of the package-level `Catch` binding:
`var Catch = CatchAllWithStackFunc`. -/
def Catch : Option GoValue → Option GoValue → String → BoundaryResult :=
  CatchAllWithStackFunc

/-- C1: for every non-nil error `e`, `TryWrapErrorFunc` panics with a payload
carrying exactly one layer of caller provenance: an already wrapped `e` is
re-raised unchanged, any other `e` is wrapped once into a
`LazyErrorWithCaller`; a second invocation on the raised payload re-raises it
unchanged, and a `LazyErrorWithCaller` freshly constructed here never wraps
another wrapped error. -/
theorem tryWrap_single_layer (above above2 : List Frame) (e : GoValue)
    (he : e ≠ GoValue.goNil) :
    (isWrapped e = true → TryWrapErrorFunc above e = TryOutcome.panicked e)
    ∧ (isWrapped e = false →
        TryWrapErrorFunc above e
          = TryOutcome.panicked
              (GoValue.lazyWithCaller e
                (caller (frameNewErrorWithCaller :: frameTryWrapError :: above))))
    ∧ (∀ p, TryWrapErrorFunc above e = TryOutcome.panicked p →
        TryWrapErrorFunc above2 p = TryOutcome.panicked p)
    ∧ (∀ f c,
        TryWrapErrorFunc above e = TryOutcome.panicked (GoValue.lazyWithCaller f c) →
        isWrapped e = false → isWrapped f = false) := by
  cases e <;>
    simp_all [TryWrapErrorFunc, NewErrorWithCaller, isWrapped]

theorem tryWrap_single_layer_witness :
    TryWrapErrorFunc [("main.go", 10)] (GoValue.errorString "x")
      = TryOutcome.panicked
          (GoValue.lazyWithCaller (GoValue.errorString "x")
            (caller (frameNewErrorWithCaller :: frameTryWrapError :: [("main.go", 10)]))) :=
  (tryWrap_single_layer [("main.go", 10)] [] (GoValue.errorString "x")
    (by decide)).2.1 rfl

/-- C2: for every pending payload and non-nil slot pointer,
`CatchAllWithStackFunc` never re-raises; an error payload is written as is,
any other payload is written as a `LazyErrorFromPanic` carrying the payload
and the captured stack snapshot. -/
theorem catchAllWithStack_absorbs (prior v : GoValue) (snap : String) :
    (CatchAllWithStackFunc (some prior) (some v) snap).pending = none
    ∧ (isError v = true →
        CatchAllWithStackFunc (some prior) (some v) snap = ⟨some v, none⟩)
    ∧ (isError v = false →
        CatchAllWithStackFunc (some prior) (some v) snap
          = ⟨some (GoValue.lazyFromPanic v snap), none⟩) := by
  cases hb : isError v <;> simp [CatchAllWithStackFunc, hb]

theorem catchAllWithStack_absorbs_witness :
    CatchAllWithStackFunc (some GoValue.goNil) (some (GoValue.other "boom")) "st"
      = ⟨some (GoValue.lazyFromPanic (GoValue.other "boom") "st"), none⟩ :=
  (catchAllWithStack_absorbs GoValue.goNil (GoValue.other "boom") "st").2.2 rfl

/-- C3: `CatchErrorFunc` with a non-nil slot pointer writes the pending
payload exactly when it satisfies the error interface; otherwise it re-raises
the payload unchanged and leaves the slot unmodified. -/
theorem catchError_exact (prior v : GoValue) (snap : String) :
    (isError v = true →
      CatchErrorFunc (some prior) (some v) snap = ⟨some v, none⟩)
    ∧ (isError v = false →
      CatchErrorFunc (some prior) (some v) snap = ⟨some prior, some v⟩) := by
  cases hb : isError v <;> simp [CatchErrorFunc, hb]

theorem catchError_exact_witness :
    CatchErrorFunc (some GoValue.goNil) (some (GoValue.errorString "x")) ""
      = ⟨some (GoValue.errorString "x"), none⟩
    ∧ CatchErrorFunc (some GoValue.goNil) (some (GoValue.other "boom")) ""
      = ⟨some GoValue.goNil, some (GoValue.other "boom")⟩ :=
  ⟨(catchError_exact GoValue.goNil (GoValue.errorString "x") "").1 rfl,
   (catchError_exact GoValue.goNil (GoValue.other "boom") "").2 rfl⟩

/-- C4: `CatchLazyErrorFunc` with a non-nil slot pointer writes the pending
payload exactly when it is a `*LazyErrorWithCaller` or a
`*LazyErrorFromPanic`; every other payload, plain errors included, is
re-raised unchanged with the slot unmodified. -/
theorem catchLazyError_exact (prior v : GoValue) (snap : String) :
    (isWrapped v = true →
      CatchLazyErrorFunc (some prior) (some v) snap = ⟨some v, none⟩)
    ∧ (isWrapped v = false →
      CatchLazyErrorFunc (some prior) (some v) snap = ⟨some prior, some v⟩) := by
  cases v <;> simp [CatchLazyErrorFunc, isWrapped]

theorem catchLazyError_exact_witness :
    CatchLazyErrorFunc (some GoValue.goNil)
        (some (GoValue.lazyWithCaller (GoValue.errorString "x") "c")) ""
      = ⟨some (GoValue.lazyWithCaller (GoValue.errorString "x") "c"), none⟩
    ∧ CatchLazyErrorFunc (some GoValue.goNil) (some (GoValue.errorString "x")) ""
      = ⟨some GoValue.goNil, some (GoValue.errorString "x")⟩ :=
  ⟨(catchLazyError_exact GoValue.goNil
      (GoValue.lazyWithCaller (GoValue.errorString "x") "c") "").1 rfl,
   (catchLazyError_exact GoValue.goNil (GoValue.errorString "x") "").2 rfl⟩

/-- C5 counterexample: the minimal textual failure written by `CatchAllFunc`
for a non-error payload has message `"panic: "` followed by the payload's
textual form, not `"interruption: "` followed by it. -/
theorem catchAll_message_counterexample :
    (CatchAllFunc (some GoValue.goNil) (some (GoValue.other "boom")) "").slot
      = some (GoValue.errorString ("panic: " ++ fmtV (GoValue.other "boom")))
    ∧ ("panic: " ++ fmtV (GoValue.other "boom"))
      ≠ ("interruption: " ++ fmtV (GoValue.other "boom")) :=
  ⟨rfl, by decide⟩

/-- C5 (amended): for every pending payload and non-nil slot pointer,
`CatchAllFunc` never re-raises; an error payload is written as is, any other
payload is written as a minimal textual failure whose message is the string
`"panic: "` followed by the textual form of the payload. -/
theorem catchAll_absorbs (prior v : GoValue) (snap : String) :
    (CatchAllFunc (some prior) (some v) snap).pending = none
    ∧ (isError v = true →
        CatchAllFunc (some prior) (some v) snap = ⟨some v, none⟩)
    ∧ (isError v = false →
        CatchAllFunc (some prior) (some v) snap
          = ⟨some (GoValue.errorString ("panic: " ++ fmtV v)), none⟩) := by
  cases hb : isError v <;> simp [CatchAllFunc, hb]

theorem catchAll_absorbs_witness :
    CatchAllFunc (some GoValue.goNil) (some (GoValue.other "boom")) ""
      = ⟨some (GoValue.errorString ("panic: " ++ fmtV (GoValue.other "boom"))), none⟩ :=
  (catchAll_absorbs GoValue.goNil (GoValue.other "boom") "").2.2 rfl

/-- C6: the cause extracted from a `LazyErrorWithCaller` wrapping `F` is
exactly `F`; the cause extracted from a `LazyErrorFromPanic` built over any
payload `X` is always the sentinel `ErrPanic`, never `X` itself. -/
theorem unwrap_causes (F X : GoValue) (c st : String) :
    Unwrap (GoValue.lazyWithCaller F c) = some F
    ∧ Unwrap (GoValue.lazyFromPanic X st) = some ErrPanic
    ∧ (X ≠ ErrPanic → Unwrap (GoValue.lazyFromPanic X st) ≠ some X) := by
  refine ⟨rfl, rfl, fun hx h => hx ?_⟩
  exact Eq.symm (by simpa [Unwrap] using h)

theorem unwrap_causes_witness :
    Unwrap (GoValue.lazyWithCaller (GoValue.errorString "x") "c")
      = some (GoValue.errorString "x")
    ∧ Unwrap (GoValue.lazyFromPanic (GoValue.str "boom") "st")
      ≠ some (GoValue.str "boom") :=
  ⟨(unwrap_causes (GoValue.errorString "x") (GoValue.str "boom") "c" "st").1,
   (unwrap_causes (GoValue.errorString "x") (GoValue.str "boom") "c" "st").2.2
     (by decide)⟩

/-- C7: on a nil error both Try variants return normally, and on a normal
scope exit (nothing to recover) every Catch variant leaves a non-nil output
slot holding exactly its prior value. -/
theorem nil_error_noop (above : List Frame) (prior : GoValue) (snap : String) :
    TryWrapErrorFunc above GoValue.goNil = TryOutcome.normal
    ∧ TryErrorFunc above GoValue.goNil = TryOutcome.normal
    ∧ CatchErrorFunc (some prior) none snap = ⟨some prior, none⟩
    ∧ CatchLazyErrorFunc (some prior) none snap = ⟨some prior, none⟩
    ∧ CatchAllWithStackFunc (some prior) none snap = ⟨some prior, none⟩
    ∧ CatchAllFunc (some prior) none snap = ⟨some prior, none⟩ :=
  ⟨rfl, rfl, rfl, rfl, rfl, rfl⟩

/-- C8: every Catch variant called with a nil slot pointer returns
immediately: nothing is written and, since `recover` is never called, a
pending panic keeps propagating unchanged. -/
theorem nil_slot_noop (r : Option GoValue) (snap : String) :
    CatchErrorFunc none r snap = ⟨none, r⟩
    ∧ CatchLazyErrorFunc none r snap = ⟨none, r⟩
    ∧ CatchAllWithStackFunc none r snap = ⟨none, r⟩
    ∧ CatchAllFunc none r snap = ⟨none, r⟩ :=
  ⟨rfl, rfl, rfl, rfl⟩

/-- C9: wrapping a fresh failure records, via `runtime.Caller(3)` skipping the
three internal frames (`caller`, `NewErrorWithCaller`, `TryWrapErrorFunc`),
the file and line of the frame that invoked Try — independently of every
deeper frame — and the wrapped error's message is the `file:line: ` prefix
followed by the original failure's message. -/
theorem tryWrap_caller_provenance (file : String) (line : Nat)
    (rest : List Frame) (e : GoValue) (he : e ≠ GoValue.goNil)
    (hw : isWrapped e = false) (herr : isError e = true) :
    TryWrapErrorFunc ((file, line) :: rest) e
      = TryOutcome.panicked
          (GoValue.lazyWithCaller e (file ++ ":" ++ toString line ++ ": "))
    ∧ fmtV (GoValue.lazyWithCaller e (file ++ ":" ++ toString line ++ ": "))
      = file ++ ":" ++ toString line ++ ": " ++ fmtV e := by
  constructor
  · cases e <;>
      simp_all [TryWrapErrorFunc, NewErrorWithCaller, caller, runtimeCaller,
        formatFrame, isWrapped, isError]
  · simp [fmtV]

theorem tryWrap_caller_provenance_witness :
    TryWrapErrorFunc [("main.go", 10)] (GoValue.errorString "x")
      = TryOutcome.panicked
          (GoValue.lazyWithCaller (GoValue.errorString "x")
            ("main.go" ++ ":" ++ toString (10 : Nat) ++ ": "))
    ∧ fmtV (GoValue.lazyWithCaller (GoValue.errorString "x")
            ("main.go" ++ ":" ++ toString (10 : Nat) ++ ": "))
      = "main.go" ++ ":" ++ toString (10 : Nat) ++ ": "
          ++ fmtV (GoValue.errorString "x") :=
  tryWrap_caller_provenance "main.go" 10 [] (GoValue.errorString "x")
    (by decide) rfl rfl

/-- C10: the initial default bindings are `Try = TryWrapErrorFunc` and
`Catch = CatchAllWithStackFunc`, so by default a fresh failure is wrapped
with caller provenance and every interruption is absorbed, non-error payloads
gaining a stack snapshot. -/
theorem default_bindings (above : List Frame) (prior v e : GoValue)
    (snap : String) (hw : isWrapped e = false) (he : e ≠ GoValue.goNil) :
    Try = TryWrapErrorFunc
    ∧ Catch = CatchAllWithStackFunc
    ∧ Try above e
        = TryOutcome.panicked
            (GoValue.lazyWithCaller e
              (caller (frameNewErrorWithCaller :: frameTryWrapError :: above)))
    ∧ (Catch (some prior) (some v) snap).pending = none
    ∧ (isError v = false →
        Catch (some prior) (some v) snap
          = ⟨some (GoValue.lazyFromPanic v snap), none⟩) := by
  refine ⟨rfl, rfl, ?_, ?_, ?_⟩
  · cases e <;>
      simp_all [Try, TryWrapErrorFunc, NewErrorWithCaller, isWrapped]
  · cases hb : isError v <;> simp [Catch, CatchAllWithStackFunc, hb]
  · intro hb
    simp [Catch, CatchAllWithStackFunc, hb]

theorem default_bindings_witness :
    Try [("main.go", 10)] (GoValue.errorString "x")
      = TryOutcome.panicked
          (GoValue.lazyWithCaller (GoValue.errorString "x")
            (caller (frameNewErrorWithCaller :: frameTryWrapError
              :: [("main.go", 10)])))
    ∧ Catch (some GoValue.goNil) (some (GoValue.other "boom")) "st"
      = ⟨some (GoValue.lazyFromPanic (GoValue.other "boom") "st"), none⟩ :=
  ⟨(default_bindings [("main.go", 10)] GoValue.goNil (GoValue.other "boom")
      (GoValue.errorString "x") "st" rfl (by decide)).2.2.1,
   (default_bindings [("main.go", 10)] GoValue.goNil (GoValue.other "boom")
      (GoValue.errorString "x") "st" rfl (by decide)).2.2.2.2 rfl⟩

end LazyErrors
